import Mathlib

/-!
Shallow embedding of the ucms1 course-management backend.

The repository is a set of Supabase edge functions (course-service,
enrollment-service, assignment-service, submission-service, grading-service,
analytics-service) plus React pages.  Each handler is a pure computation over
the rows it fetched, together with at most one table write; we embed the
tables as Lean lists, the handlers as pure functions from table states to
(result, new table state), and JavaScript number arithmetic as exact rational
arithmetic with an explicit JavaScript-style rounding function.
-/

/-- JavaScript `Math.round`: round half towards positive infinity. -/
def jsRound (x : Rat) : Int := Rat.floor (x + 1/2)

/-- JavaScript `Math.round(x * 100) / 100` — round to two decimals. -/
def jsRound2 (x : Rat) : Rat := (jsRound (x * 100) : Rat) / 100

/-- A row of the `enrollments` table. -/
structure Enrollment where
  id : Nat
  student_id : Nat
  course_id : Nat
  status : String
deriving Repr, DecidableEq

/-- A row of the `assignments` table. -/
structure Assignment where
  id : Nat
  course_id : Nat
  title : String
  max_grade : Rat
  due_date : Nat
  created_by : Nat
deriving Repr, DecidableEq

/-- A row of the `submissions` table. -/
structure Submission where
  id : Nat
  assignment_id : Nat
  student_id : Nat
  content : String
  file_url : Option String
  grade : Option Rat
  feedback : Option String
  graded_by : Option Nat
  graded_at : Option Nat
  submitted_at : Nat
deriving Repr, DecidableEq

/-- The tables the analytics service reads. -/
structure Db where
  enrollments : List Enrollment
  assignments : List Assignment
  submissions : List Submission
deriving Repr, DecidableEq

/-- Payload of a `send-notification` invocation. -/
structure NotificationMsg where
  user_id : Nat
  ntype : String
  title : String
  message : String
deriving Repr, DecidableEq

/-! ## analytics-service: getCourseAnalytics -/

/-- Embeds `supabase.from('enrollments').select('*').eq('course_id', courseId)`. -/
def courseEnrollments (db : Db) (courseId : Nat) : List Enrollment :=
  db.enrollments.filter (fun e => e.course_id == courseId)

/-- Embeds `supabase.from('assignments').select('*').eq('course_id', courseId)`. -/
def courseAssignments (db : Db) (courseId : Nat) : List Assignment :=
  db.assignments.filter (fun a => a.course_id == courseId)

/-- Embeds `supabase.from('submissions').select('*, assignments!inner(course_id)')
    .eq('assignments.course_id', courseId)`: inner join keeps the submissions
    whose assignment belongs to the course. -/
def courseSubmissions (db : Db) (courseId : Nat) : List Submission :=
  db.submissions.filter (fun s =>
    db.assignments.any (fun a => a.id == s.assignment_id && a.course_id == courseId))

/-- Embeds `submissions?.filter((s) => s.grade !== null) || []`. -/
def courseGraded (db : Db) (courseId : Nat) : List Submission :=
  (courseSubmissions db courseId).filter (fun s => s.grade != none)

/-- The `analytics` object returned by `getCourseAnalytics`. -/
structure CourseAnalytics where
  total_students : Nat
  total_assignments : Nat
  total_submissions : Nat
  graded_submissions : Nat
  average_grade : Rat
  completion_rate : Int
deriving Repr, DecidableEq

/-- The body of `getCourseAnalytics` in the analytics service, transcribed
    from the source. -/
def getCourseAnalytics (db : Db) (courseId : Nat) : CourseAnalytics :=
  let enrollments := courseEnrollments db courseId
  let assignments := courseAssignments db courseId
  let submissions := courseSubmissions db courseId
  let gradedSubmissions := courseGraded db courseId
  let averageGrade : Rat :=
    if gradedSubmissions.length > 0 then
      (gradedSubmissions.map (fun s => s.grade.getD 0)).sum / gradedSubmissions.length
    else 0
  { total_students := enrollments.length
    total_assignments := assignments.length
    total_submissions := submissions.length
    graded_submissions := gradedSubmissions.length
    average_grade := jsRound2 averageGrade
    completion_rate :=
      if assignments.length > 0 then
        jsRound ((gradedSubmissions.length : Rat) /
          (if enrollments.length == 0 then 1 else enrollments.length) /
          assignments.length * 100)
      else 0 }

/-! ## analytics-service: getSystemMetrics -/

/-- A row of the `user_roles` table. -/
structure UserRole where
  user_id : Nat
  role : String
deriving Repr, DecidableEq

/-- The tables `getSystemMetrics` reads.  Each select's `data` may be null
    (the handler ignores errors), hence `Option`. -/
structure MetricsDb where
  courses : Option (List Nat)
  user_roles : Option (List UserRole)
  assignments : Option (List Assignment)
  submissions : Option (List Submission)
  enrollments : Option (List Enrollment)
deriving Repr, DecidableEq

/-- The `metrics` object returned by `getSystemMetrics`. -/
structure SystemMetrics where
  total_courses : Nat
  total_students : Nat
  total_lecturers : Nat
  total_assignments : Nat
  total_submissions : Nat
  total_enrollments : Nat
deriving Repr, DecidableEq

/-- The body of `getSystemMetrics`: flat counts with `?.length || 0`. -/
def getSystemMetrics (db : MetricsDb) : SystemMetrics :=
  { total_courses := (db.courses.map List.length).getD 0
    total_students :=
      ((db.user_roles.map (fun l => (l.filter (fun r => r.role == "student")).length)).getD 0)
    total_lecturers :=
      ((db.user_roles.map (fun l => (l.filter (fun r => r.role == "lecturer")).length)).getD 0)
    total_assignments := (db.assignments.map List.length).getD 0
    total_submissions := (db.submissions.map List.length).getD 0
    total_enrollments := (db.enrollments.map List.length).getD 0 }

/-- The handler never throws after the selects (errors are discarded by the
    destructuring); the response is always a 200 success envelope. -/
def getSystemMetricsResponse (db : MetricsDb) : Except String SystemMetrics :=
  Except.ok (getSystemMetrics db)

/-! ## enrollment-service: enrollStudent -/

/-- What the enroll handler returns: a 400 duplicate error, or the inserted
    row. -/
inductive EnrollOutcome where
  | dup
  | ok (e : Enrollment)
deriving Repr, DecidableEq

/-- Handler `enrollStudent`: select `*` where student_id and course_id match, with
    `.single()` — which yields a non-null `existing` exactly when one row
    matches (zero or several rows make `.single()` error, and the handler
    discards the error).  On a match: 400 and no write.  Otherwise insert
    `{student_id, course_id, status: 'active'}`.  `freshId` stands for the
    database-assigned id. -/
def enrollStudent (table : List Enrollment) (studentId courseId freshId : Nat) :
    EnrollOutcome × List Enrollment :=
  let existing := table.filter
    (fun e => e.student_id == studentId && e.course_id == courseId)
  if existing.length == 1 then
    (EnrollOutcome.dup, table)
  else
    let row : Enrollment :=
      { id := freshId, student_id := studentId, course_id := courseId, status := "active" }
    (EnrollOutcome.ok row, table ++ [row])

/-! ## submission-service: createSubmission, updateSubmission -/

/-- What the create-submission handler returns. -/
inductive SubmitOutcome where
  | dup
  | ok (s : Submission)
deriving Repr, DecidableEq

/-- Handler `createSubmission`: select where student_id and assignment_id match with
    `.single()` (non-null exactly when one row matches); on a match: 400 and
    no write; otherwise insert `{assignment_id, student_id, content,
    file_url}`.  `freshId`/`now` stand for the database-assigned id and
    timestamp. -/
def createSubmission (table : List Submission) (studentId assignmentId : Nat)
    (content : String) (fileUrl : Option String) (freshId now : Nat) :
    SubmitOutcome × List Submission :=
  let existing := table.filter
    (fun s => s.student_id == studentId && s.assignment_id == assignmentId)
  if existing.length == 1 then
    (SubmitOutcome.dup, table)
  else
    let row : Submission :=
      { id := freshId, assignment_id := assignmentId, student_id := studentId
        content := content, file_url := fileUrl, grade := none, feedback := none
        graded_by := none, graded_at := none, submitted_at := now }
    (SubmitOutcome.ok row, table ++ [row])

/-- The free-form `updates` object of the submission `update` action: each
    field is present (`some`) or absent (`none`) in the request body. -/
structure SubmissionUpdate where
  new_content : Option String
  new_file_url : Option (Option String)
deriving Repr, DecidableEq

/-- Apply an `updates` object to a row, field by field. -/
def applyUpdates (u : SubmissionUpdate) (s : Submission) : Submission :=
  { s with
    content := u.new_content.getD s.content
    file_url := u.new_file_url.getD s.file_url }

/-- Handler `updateSubmission`: `update(updates).eq('id', id).select().single()` —
    updates every row whose id matches, and succeeds exactly when one row
    matched (otherwise `.single()` errors and the handler throws).  There is
    no check on the row's current grade. -/
def updateSubmission (table : List Submission) (id : Nat) (u : SubmissionUpdate) :
    Option (Submission × List Submission) :=
  let updated := table.map (fun s => if s.id == id then applyUpdates u s else s)
  match updated.filter (fun s => s.id == id) with
  | [s] => some (s, updated)
  | _ => none

/-! ## grading-service: gradeSubmission -/

/-- The single write of the grade handler: set grade, feedback, graded_by and
    graded_at, touch nothing else. -/
def applyGrade (g : Rat) (fb : Option String) (gradedBy now : Nat) (s : Submission) :
    Submission :=
  { s with grade := some g, feedback := fb, graded_by := some gradedBy,
           graded_at := some now }

/-- Handler `gradeSubmission`: one `update(...).eq('id', submission_id)
    .select('*, assignments(title)').single()`; on success, invoke
    `send-notification` for the updated row's student, embedding the grade in
    the message.  Fails (throws) when the update did not match exactly one
    row. -/
def gradeSubmission (subTable : List Submission) (asgTable : List Assignment)
    (submissionId : Nat) (g : Rat) (fb : Option String) (gradedBy now : Nat) :
    Option (Submission × List Submission × NotificationMsg) :=
  let updated := subTable.map
    (fun s => if s.id == submissionId then applyGrade g fb gradedBy now s else s)
  match updated.filter (fun s => s.id == submissionId) with
  | [s] =>
    let joinedTitle :=
      ((asgTable.filter (fun a => a.id == s.assignment_id)).map
        (fun a => a.title)).headD ""
    some (s, updated,
      { user_id := s.student_id, ntype := "grade", title := "Assignment Graded"
        message := "Your submission for \"" ++ joinedTitle ++
          "\" has been graded. Grade: " ++ toString s.grade.iget })
  | _ => none

/-! ## LecturerAssignmentsPage: handleGrade (client-side grading) -/

/-- Result of the client-side `handleGrade`: either the invalid-grade toast
    (and no write is issued), or the update the client sends. -/
inductive GradeAttempt where
  | invalid
  | written (table : List Submission)
deriving Repr, DecidableEq

/-- Client `handleGrade` from LecturerAssignmentsPage: `parseInt` the grade string
    (`none` models NaN); refuse when NaN, below 0 or above the assignment's
    max_grade; otherwise update grade/feedback/graded_by/graded_at on the
    submission row. -/
def handleGrade (table : List Submission) (maxGrade : Rat) (gradeNum : Option Int)
    (feedback : String) (userId now submissionId : Nat) : GradeAttempt :=
  match gradeNum with
  | none => GradeAttempt.invalid
  | some g =>
    if g < 0 || (g : Rat) > maxGrade then GradeAttempt.invalid
    else GradeAttempt.written (table.map (fun s =>
      if s.id == submissionId then
        applyGrade (g : Rat) (if feedback == "" then none else some feedback) userId now s
      else s))

/-! ## assignment-service: createAssignment -/

/-- Embeds `data.max_grade || 100`: a missing/null max_grade (`none`) and the falsy
    number 0 both fall back to 100; any other number is kept. -/
def defaultMaxGrade (v : Option Rat) : Rat :=
  match v with
  | none => 100
  | some x => if x == 0 then 100 else x

/-- Handler `createAssignment` (assignment-service): insert the row with
    `max_grade: data.max_grade || 100`.  `freshId` stands for the
    database-assigned id.  The notification fan-out does not touch the
    assignments table and is omitted here. -/
def createAssignment (table : List Assignment) (title : String) (courseId : Nat)
    (dueDate : Nat) (maxGrade : Option Rat) (createdBy freshId : Nat) :
    Assignment × List Assignment :=
  let row : Assignment :=
    { id := freshId, course_id := courseId, title := title
      max_grade := defaultMaxGrade maxGrade, due_date := dueDate
      created_by := createdBy }
  (row, table ++ [row])

/-! ## LecturerAssignmentsPage: StudentProgressPage per-student computation -/

/-- One entry of `studentAssignments` in `StudentProgressPage`. -/
structure ProgressRow where
  assignment_id : Nat
  max_grade : Rat
  submitted : Bool
  grade : Option Rat
deriving Repr, DecidableEq

/-- Embeds `submissionsMap[studentId]?.[a.id]`: the map is built by a forEach that
    overwrites, so the last matching submission wins; `none` when the student
    has no submission for the assignment. -/
def lookupSub (subs : List Submission) (assignmentId : Nat) : Option Submission :=
  (subs.filter (fun s => s.assignment_id == assignmentId)).getLast?

/-- The `studentAssignments` array for one student: `submitted: !!submission`,
    `grade: submission?.grade ?? null`. -/
def studentAssignmentRows (assignments : List Assignment) (subs : List Submission) :
    List ProgressRow :=
  assignments.map (fun a =>
    let sub := lookupSub subs a.id
    { assignment_id := a.id, max_grade := a.max_grade
      submitted := sub.isSome
      grade := match sub with | none => none | some s => s.grade })

/-- The per-student summary built by `StudentProgressPage`. -/
structure StudentProgressSummary where
  averageGrade : Option Int
  submissionRate : Int
deriving Repr, DecidableEq

/-- The tail of the `progressData` construction: `submittedCount`,
    `gradedAssignments`, `averageGrade` (null when nothing is graded,
    otherwise the rounded mean of grade/max_grade×100) and `submissionRate`
    (`assignments?.length ? round(submittedCount/assignments.length×100) : 0`). -/
def studentProgress (assignments : List Assignment) (subs : List Submission) :
    StudentProgressSummary :=
  let rows := studentAssignmentRows assignments subs
  let submittedCount := (rows.filter (fun r => r.submitted)).length
  let gradedAssignments := rows.filter (fun r => r.grade != none)
  let averageGrade : Option Int :=
    if gradedAssignments.length > 0 then
      some (jsRound ((gradedAssignments.map
        (fun r => r.grade.getD 0 / r.max_grade * 100)).sum / gradedAssignments.length))
    else none
  { averageGrade := averageGrade
    submissionRate :=
      if assignments.length != 0 then
        jsRound ((submittedCount : Rat) / assignments.length * 100)
      else 0 }

/-! ## SubmissionPage: graded-state gating -/

/-- Embeds `const isGraded = submission !== null && submission.grade !== null`. -/
def isGraded (submission : Option Submission) : Bool :=
  match submission with
  | none => false
  | some s => s.grade != none

/-- Embeds `const canEdit = !isGraded`: when false, the textarea is disabled and the
    submit button is not rendered, so the page issues no update. -/
def canEdit (submission : Option Submission) : Bool :=
  !(isGraded submission)

/-! ## Helper lemmas -/

/-- A filter over a by-id update keeps exactly the rows the plain filter
    keeps, with the update applied, provided the update preserves the id. -/
theorem filter_update_eq (table : List Submission) (id0 : Nat)
    (f : Submission → Submission) (hf : ∀ s, (f s).id = s.id) :
    (table.map (fun s => if s.id == id0 then f s else s)).filter
        (fun s => s.id == id0) =
      (table.filter (fun s => s.id == id0)).map f := by
  rw [List.filter_map]
  have hp : ((fun s : Submission => s.id == id0) ∘
      (fun s => if s.id == id0 then f s else s)) =
      (fun s : Submission => s.id == id0) := by
    funext s
    by_cases h : s.id = id0
    · simp [h, hf]
    · simp [h]
  rw [hp]
  exact (List.map_congr_left (fun s hs => by
    simp only [List.mem_filter] at hs
    simp [hs.2])).symm

/-- A Bool-filter matching at most one row matches exactly one when a
    matching row exists. -/
theorem filter_length_one {α : Type} (p : α → Bool) (l : List α)
    (hle : (l.filter p).length ≤ 1) (hex : ∃ x ∈ l, p x = true) :
    (l.filter p).length = 1 := by
  obtain ⟨x, hx, hpx⟩ := hex
  have hmem : x ∈ l.filter p := List.mem_filter.mpr ⟨hx, hpx⟩
  have h1 : 0 < (l.filter p).length :=
    List.length_pos.mpr (List.ne_nil_of_mem hmem)
  omega

/-- The common shape of the grade write: on a table holding exactly one row
    with the target id, `gradeSubmission` succeeds, applies `applyGrade` to
    that row only, and emits the student notification with the grade at the
    end of the message. -/
theorem gradeSubmission_eq (subTable : List Submission) (asgTable : List Assignment)
    (submissionId : Nat) (g : Rat) (fb : Option String) (gradedBy now : Nat)
    (s0 : Submission)
    (h : subTable.filter (fun s => s.id == submissionId) = [s0]) :
    gradeSubmission subTable asgTable submissionId g fb gradedBy now =
      some (applyGrade g fb gradedBy now s0,
        subTable.map (fun s =>
          if s.id == submissionId then applyGrade g fb gradedBy now s else s),
        { user_id := s0.student_id, ntype := "grade", title := "Assignment Graded"
          message := "Your submission for \"" ++
            ((asgTable.filter (fun a => a.id == s0.assignment_id)).map
              (fun a => a.title)).headD "" ++
            "\" has been graded. Grade: " ++ toString g }) := by
  simp only [gradeSubmission]
  rw [filter_update_eq subTable submissionId (applyGrade g fb gradedBy now)
    (fun s => rfl), h]
  simp [applyGrade, Option.iget]

/-! ## Claims -/

/-- C1.  Course analytics completion rate: when the course has at least one
    assignment, completion_rate is round(graded_count /
    (enrollment_count, taken as 1 when zero) / assignment_count × 100);
    with zero assignments it is 0. -/
theorem C1_completion_rate (db : Db) (courseId : Nat) :
    (getCourseAnalytics db courseId).completion_rate =
      if (getCourseAnalytics db courseId).total_assignments = 0 then 0
      else jsRound (((getCourseAnalytics db courseId).graded_submissions : Rat) /
        (if (getCourseAnalytics db courseId).total_students = 0 then 1
          else ((getCourseAnalytics db courseId).total_students : Rat)) /
        ((getCourseAnalytics db courseId).total_assignments : Rat) * 100) := by
  simp only [getCourseAnalytics]
  by_cases h : (courseAssignments db courseId).length = 0
  · simp [h]
  · simp [h, Nat.pos_of_ne_zero h, apply_ite (Nat.cast : Nat → Rat)]

/-- A course with three enrolled students and one assignment (max_grade 100),
    graded 70, 80 and 90 — the spec's average-grade example. -/
def db80 : Db :=
  { enrollments := [⟨1, 10, 1, "active"⟩, ⟨2, 11, 1, "active"⟩, ⟨3, 12, 1, "active"⟩]
    assignments := [⟨1, 1, "A1", 100, 0, 5⟩]
    submissions :=
      [⟨1, 1, 10, "x", none, some 70, none, some 5, some 1, 0⟩,
       ⟨2, 1, 11, "y", none, some 80, none, some 5, some 1, 0⟩,
       ⟨3, 1, 12, "z", none, some 90, none, some 5, some 1, 0⟩] }

/-- C2.  Course analytics average grade: the two-decimal rounding of the mean
    grade over the submissions with a non-null grade, 0 when there is none;
    and for grades 70, 80, 90 it is 80. -/
theorem C2_average_grade :
    (∀ (db : Db) (courseId : Nat),
      (getCourseAnalytics db courseId).average_grade =
        if (courseGraded db courseId).length = 0 then 0
        else jsRound2 (((courseGraded db courseId).map
          (fun s => s.grade.getD 0)).sum / ((courseGraded db courseId).length : Rat))) ∧
    (getCourseAnalytics db80 1).average_grade = 80 := by
  constructor
  · intro db courseId
    simp only [getCourseAnalytics]
    by_cases h : (courseGraded db courseId).length = 0
    · simp [h, jsRound2, jsRound]
      norm_num [Rat.floor_def']
    · simp [h, Nat.pos_of_ne_zero h]
  · with_unfolding_all decide

/-- C8.  With every table empty (each select returning an empty row set),
    the system-metrics handler succeeds and returns all-zero counts. -/
theorem C8_empty_metrics :
    getSystemMetricsResponse
        { courses := some [], user_roles := some [], assignments := some []
          submissions := some [], enrollments := some [] } =
      Except.ok { total_courses := 0, total_students := 0, total_lecturers := 0
                  total_assignments := 0, total_submissions := 0
                  total_enrollments := 0 } := rfl

/-- C3 (counterexample).  A single non-active enrollment for the pair: no
    active enrollment exists, yet the handler answers with the duplicate
    error and inserts nothing, against "otherwise it inserts exactly one
    enrollment with status 'active'". -/
theorem C3_counterexample :
    (([Enrollment.mk 1 10 20 "completed"].filter
        (fun e => e.student_id == 10 && e.course_id == 20 && e.status == "active")) = []) ∧
    enrollStudent [Enrollment.mk 1 10 20 "completed"] 10 20 2 =
      (EnrollOutcome.dup, [Enrollment.mk 1 10 20 "completed"]) := by
  decide

/-- C3 (amended).  The duplicate check ignores the enrollment's status: under
    the pair-uniqueness invariant, if an enrollment of any status exists for
    (student, course) the handler returns the 400 duplicate error and leaves
    the table unchanged; otherwise it inserts exactly one enrollment with
    status 'active'.  In particular the second of two enroll calls for the
    same pair fails with the duplicate error and adds no row. -/
theorem C3_enroll_duplicate (table : List Enrollment) (studentId courseId freshId : Nat)
    (hinv : (table.filter
      (fun e => e.student_id == studentId && e.course_id == courseId)).length ≤ 1) :
    ((∃ e ∈ table, e.student_id = studentId ∧ e.course_id = courseId) →
      enrollStudent table studentId courseId freshId = (EnrollOutcome.dup, table)) ∧
    ((∀ e ∈ table, ¬(e.student_id = studentId ∧ e.course_id = courseId)) →
      enrollStudent table studentId courseId freshId =
        (EnrollOutcome.ok ⟨freshId, studentId, courseId, "active"⟩,
         table ++ [⟨freshId, studentId, courseId, "active"⟩])) ∧
    enrollStudent (enrollStudent [] 10 20 1).2 10 20 2 =
      (EnrollOutcome.dup, (enrollStudent [] 10 20 1).2) := by
  refine ⟨fun hex => ?_, fun hall => ?_, by decide⟩
  · have h1 : (table.filter
        (fun e => e.student_id == studentId && e.course_id == courseId)).length = 1 := by
      refine filter_length_one _ _ hinv ?_
      obtain ⟨e, he, h₁, h₂⟩ := hex
      exact ⟨e, he, by simp [h₁, h₂]⟩
    simp [enrollStudent, h1]
  · have h0 : table.filter
        (fun e => e.student_id == studentId && e.course_id == courseId) = [] := by
      rw [List.filter_eq_nil_iff]
      intro e he
      have := hall e he
      simp only [Bool.and_eq_true, beq_iff_eq]
      tauto
    simp [enrollStudent, h0]

/-- C3 witness: one active enrollment for the pair is present, so the handler
    answers with the duplicate error and the table is unchanged. -/
theorem C3_enroll_duplicate_witness :
    enrollStudent [Enrollment.mk 1 10 20 "active"] 10 20 2 =
      (EnrollOutcome.dup, [Enrollment.mk 1 10 20 "active"]) :=
  (C3_enroll_duplicate [Enrollment.mk 1 10 20 "active"] 10 20 2 (by decide)).1
    ⟨Enrollment.mk 1 10 20 "active", by decide, rfl, rfl⟩

/-- C4.  Duplicate submissions: under the pair-uniqueness invariant, if a
    submission exists for (student, assignment) the handler returns the 400
    duplicate error and inserts nothing; otherwise it inserts exactly one
    submission.  The second of two identical submit calls fails and adds no
    row. -/
theorem C4_submission_duplicate (table : List Submission) (studentId assignmentId : Nat)
    (content : String) (fileUrl : Option String) (freshId now : Nat)
    (hinv : (table.filter
      (fun s => s.student_id == studentId && s.assignment_id == assignmentId)).length ≤ 1) :
    ((∃ s ∈ table, s.student_id = studentId ∧ s.assignment_id = assignmentId) →
      createSubmission table studentId assignmentId content fileUrl freshId now =
        (SubmitOutcome.dup, table)) ∧
    ((∀ s ∈ table, ¬(s.student_id = studentId ∧ s.assignment_id = assignmentId)) →
      createSubmission table studentId assignmentId content fileUrl freshId now =
        (SubmitOutcome.ok ⟨freshId, assignmentId, studentId, content, fileUrl,
            none, none, none, none, now⟩,
         table ++ [⟨freshId, assignmentId, studentId, content, fileUrl,
            none, none, none, none, now⟩])) ∧
    createSubmission (createSubmission [] 10 1 "w" none 1 0).2 10 1 "w" none 2 1 =
      (SubmitOutcome.dup, (createSubmission [] 10 1 "w" none 1 0).2) := by
  refine ⟨fun hex => ?_, fun hall => ?_, by decide⟩
  · have h1 : (table.filter
        (fun s => s.student_id == studentId && s.assignment_id == assignmentId)).length = 1 := by
      refine filter_length_one _ _ hinv ?_
      obtain ⟨s, hs, h₁, h₂⟩ := hex
      exact ⟨s, hs, by simp [h₁, h₂]⟩
    simp [createSubmission, h1]
  · have h0 : table.filter
        (fun s => s.student_id == studentId && s.assignment_id == assignmentId) = [] := by
      rw [List.filter_eq_nil_iff]
      intro s hs
      have := hall s hs
      simp only [Bool.and_eq_true, beq_iff_eq]
      tauto
    simp [createSubmission, h0]

/-- C4 witness: a submission for the pair is present, so the handler answers
    with the duplicate error and the table is unchanged. -/
theorem C4_submission_duplicate_witness :
    createSubmission [Submission.mk 1 1 10 "w" none none none none none 0] 10 1 "x" none 2 1 =
      (SubmitOutcome.dup, [Submission.mk 1 1 10 "w" none none none none none 0]) :=
  (C4_submission_duplicate [Submission.mk 1 1 10 "w" none none none none none 0]
      10 1 "x" none 2 1 (by decide)).1
    ⟨Submission.mk 1 1 10 "w" none none none none none 0, by decide, rfl, rfl⟩

/-- C5.  Grading a submission (present exactly once in the table) is one
    write that sets grade, feedback, graded_by and graded_at and nothing
    else, leaves every other row alone, and emits one notification to that
    submission's student whose message text ends with the numeric grade. -/
theorem C5_grade_frame (subTable : List Submission) (asgTable : List Assignment)
    (submissionId : Nat) (g : Rat) (fb : Option String) (gradedBy now : Nat)
    (s0 : Submission)
    (h : subTable.filter (fun s => s.id == submissionId) = [s0]) :
    gradeSubmission subTable asgTable submissionId g fb gradedBy now =
      some (applyGrade g fb gradedBy now s0,
        subTable.map (fun s =>
          if s.id == submissionId then applyGrade g fb gradedBy now s else s),
        { user_id := s0.student_id, ntype := "grade", title := "Assignment Graded"
          message := "Your submission for \"" ++
            ((asgTable.filter (fun a => a.id == s0.assignment_id)).map
              (fun a => a.title)).headD "" ++
            "\" has been graded. Grade: " ++ toString g }) ∧
    (applyGrade g fb gradedBy now s0).grade = some g ∧
    (applyGrade g fb gradedBy now s0).feedback = fb ∧
    (applyGrade g fb gradedBy now s0).graded_by = some gradedBy ∧
    (applyGrade g fb gradedBy now s0).graded_at = some now ∧
    (applyGrade g fb gradedBy now s0).content = s0.content ∧
    (applyGrade g fb gradedBy now s0).file_url = s0.file_url ∧
    (applyGrade g fb gradedBy now s0).student_id = s0.student_id ∧
    (applyGrade g fb gradedBy now s0).assignment_id = s0.assignment_id ∧
    (applyGrade g fb gradedBy now s0).submitted_at = s0.submitted_at ∧
    (∀ s ∈ subTable, s.id ≠ submissionId →
      s ∈ subTable.map (fun s =>
        if s.id == submissionId then applyGrade g fb gradedBy now s else s)) := by
  refine ⟨gradeSubmission_eq subTable asgTable submissionId g fb gradedBy now s0 h,
    rfl, rfl, rfl, rfl, rfl, rfl, rfl, rfl, rfl, ?_⟩
  intro s hs hne
  exact List.mem_map.mpr ⟨s, hs, by simp [hne]⟩

/-- An ungraded submission used to instantiate the grading theorems. -/
def c5row : Submission := ⟨1, 1, 10, "essay", none, none, none, none, none, 0⟩

/-- The assignment of `c5row`. -/
def c5asg : Assignment := ⟨1, 1, "T", 100, 0, 5⟩

/-- C5 witness: grading the one-row table writes the four grading fields and
    notifies student 10. -/
theorem C5_grade_frame_witness :
    gradeSubmission [c5row] [c5asg] 1 85 none 5 9 =
      some (applyGrade 85 none 5 9 c5row,
        [c5row].map (fun s => if s.id == 1 then applyGrade 85 none 5 9 s else s),
        { user_id := c5row.student_id, ntype := "grade", title := "Assignment Graded"
          message := "Your submission for \"" ++
            (([c5asg].filter (fun a => a.id == c5row.assignment_id)).map
              (fun a => a.title)).headD "" ++
            "\" has been graded. Grade: " ++ toString (85 : Rat) }) :=
  (C5_grade_frame [c5row] [c5asg] 1 85 none 5 9 c5row rfl).1

/-- C6.  Grade range validation lives only in the client: `handleGrade`
    refuses NaN, negative and above-max grades without issuing the update,
    while the server-side grade handler succeeds and stores any grade value
    whatsoever for a submission present exactly once. -/
theorem C6_range_check_client_only :
    (∀ (table : List Submission) (maxGrade : Rat) (g : Int) (feedback : String)
        (userId now submissionId : Nat),
      g < 0 ∨ (g : Rat) > maxGrade →
      handleGrade table maxGrade (some g) feedback userId now submissionId =
        GradeAttempt.invalid) ∧
    (∀ (table : List Submission) (maxGrade : Rat) (feedback : String)
        (userId now submissionId : Nat),
      handleGrade table maxGrade none feedback userId now submissionId =
        GradeAttempt.invalid) ∧
    (∀ (subTable : List Submission) (asgTable : List Assignment)
        (submissionId : Nat) (g : Rat) (fb : Option String) (gradedBy now : Nat)
        (s0 : Submission),
      subTable.filter (fun s => s.id == submissionId) = [s0] →
      ∃ out, gradeSubmission subTable asgTable submissionId g fb gradedBy now =
        some out ∧ out.1.grade = some g) := by
  refine ⟨?_, fun _ _ _ _ _ _ => rfl, ?_⟩
  · intro table maxGrade g feedback userId now submissionId hg
    have hc : (decide (g < 0) || decide ((g : Rat) > maxGrade)) = true := by
      simpa only [Bool.or_eq_true, decide_eq_true_eq] using hg
    simp [handleGrade, hc]
  · intro subTable asgTable submissionId g fb gradedBy now s0 h
    exact ⟨_, gradeSubmission_eq subTable asgTable submissionId g fb gradedBy now s0 h,
      rfl⟩

/-- An ungraded submission used to instantiate the C6 server-side part. -/
def c6row : Submission := ⟨1, 1, 10, "essay", none, none, none, none, none, 0⟩

/-- C6 witness: the client refuses 101 against max_grade 100, while the
    server stores 101 without complaint. -/
theorem C6_range_check_client_only_witness :
    handleGrade [] 100 (some 101) "" 1 2 3 = GradeAttempt.invalid ∧
    ∃ out, gradeSubmission [c6row] [] 1 101 none 5 9 = some out ∧
      out.1.grade = some 101 :=
  ⟨C6_range_check_client_only.1 [] 100 101 "" 1 2 3 (Or.inr (by norm_num)),
   C6_range_check_client_only.2.2 [c6row] [] 1 101 none 5 9 c6row rfl⟩

/-- Four course assignments for the progress example. -/
def prog4 : List Assignment :=
  [⟨1, 1, "A1", 100, 1, 5⟩, ⟨2, 1, "A2", 100, 2, 5⟩,
   ⟨3, 1, "A3", 100, 3, 5⟩, ⟨4, 1, "A4", 100, 4, 5⟩]

/-- The student submitted three of the four assignments. -/
def prog3subs : List Submission :=
  [⟨1, 1, 10, "a", none, none, none, none, none, 0⟩,
   ⟨2, 2, 10, "b", none, none, none, none, none, 0⟩,
   ⟨3, 3, 10, "c", none, none, none, none, none, 0⟩]

/-- C7.  Per-student progress: submissionRate is
    round(submitted_count / total_assignments × 100), 0 with no assignments;
    averageGrade is the rounded mean of grade/max_grade×100 over the graded
    assignments only, and absent when none is graded; 3 submitted of 4 gives
    75. -/
theorem C7_student_progress :
    (∀ (assignments : List Assignment) (subs : List Submission),
      (studentProgress assignments subs).submissionRate =
        (if assignments.length = 0 then 0
         else jsRound ((((studentAssignmentRows assignments subs).filter
             (fun r => r.submitted)).length : Rat) / (assignments.length : Rat) * 100)) ∧
      (studentProgress assignments subs).averageGrade =
        (if ((studentAssignmentRows assignments subs).filter
            (fun r => r.grade != none)).length = 0 then none
         else some (jsRound ((((studentAssignmentRows assignments subs).filter
             (fun r => r.grade != none)).map
             (fun r => r.grade.getD 0 / r.max_grade * 100)).sum /
           (((studentAssignmentRows assignments subs).filter
             (fun r => r.grade != none)).length : Rat))))) ∧
    (studentProgress prog4 prog3subs).submissionRate = 75 := by
  constructor
  · intro assignments subs
    constructor
    · simp only [studentProgress]
      by_cases h : assignments.length = 0
      · simp [h]
      · simp [h]
    · simp only [studentProgress]
      by_cases h : ((studentAssignmentRows assignments subs).filter
          (fun r => r.grade != none)).length = 0
      · simp [h]
      · simp [h, Nat.pos_of_ne_zero h]
  · with_unfolding_all decide

/-- C9 (counterexample).  A graded submission (grade 90) is not immutable to
    the student: the submission-service update handler, which the student's
    client calls, changes its content without any grade check. -/
theorem C9_counterexample :
    (Submission.mk 1 1 10 "original" none (some 90) none (some 5) (some 6) 7).grade ≠ none ∧
    updateSubmission
        [Submission.mk 1 1 10 "original" none (some 90) none (some 5) (some 6) 7] 1
        { new_content := some "changed", new_file_url := none } =
      some (Submission.mk 1 1 10 "changed" none (some 90) none (some 5) (some 6) 7,
        [Submission.mk 1 1 10 "changed" none (some 90) none (some 5) (some 6) 7]) ∧
    "changed" ≠ "original" := by decide

/-- C9 (amended).  Once graded, a submission is locked only in the client:
    the submission page computes canEdit = false for a non-null grade and
    renders no submit path, while the server-side update handler applies any
    field update to a graded submission without checking the grade. -/
theorem C9_graded_lock_client_only :
    (∀ s : Submission, s.grade ≠ none → canEdit (some s) = false) ∧
    (∀ (table : List Submission) (id0 : Nat) (u : SubmissionUpdate) (s0 : Submission),
      table.filter (fun s => s.id == id0) = [s0] →
      updateSubmission table id0 u =
        some (applyUpdates u s0,
          table.map (fun s => if s.id == id0 then applyUpdates u s else s))) := by
  constructor
  · intro s hs
    cases hgr : s.grade with
    | none => exact absurd hgr hs
    | some g => simp [canEdit, isGraded, hgr]
  · intro table id0 u s0 h
    simp only [updateSubmission]
    rw [filter_update_eq table id0 (applyUpdates u) (fun s => rfl), h]
    rfl

/-- The graded submission used to instantiate C9's amended claim. -/
def c9row : Submission := ⟨1, 1, 10, "original", none, some 90, none, some 5, some 6, 7⟩

/-- C9 witness: the client refuses to edit the graded row, the server
    rewrites its content anyway. -/
theorem C9_graded_lock_client_only_witness :
    canEdit (some c9row) = false ∧
    updateSubmission [c9row] 1 { new_content := some "changed", new_file_url := none } =
      some (applyUpdates { new_content := some "changed", new_file_url := none } c9row,
        [c9row].map (fun s =>
          if s.id == 1 then
            applyUpdates { new_content := some "changed", new_file_url := none } s
          else s)) :=
  ⟨C9_graded_lock_client_only.1 c9row (by decide),
   C9_graded_lock_client_only.2 [c9row] 1 _ c9row rfl⟩

/-- C10.  createAssignment stores max_grade 100 when the field is absent or
    the falsy 0, stores any other provided value unchanged, and appends
    exactly the built row. -/
theorem C10_max_grade_default (table : List Assignment) (title : String)
    (courseId dueDate createdBy freshId : Nat) :
    ((createAssignment table title courseId dueDate none createdBy freshId).1.max_grade
      = 100) ∧
    ((createAssignment table title courseId dueDate (some 0) createdBy freshId).1.max_grade
      = 100) ∧
    (∀ v : Rat, v ≠ 0 →
      (createAssignment table title courseId dueDate (some v) createdBy freshId).1.max_grade
        = v) ∧
    (∀ mg : Option Rat,
      (createAssignment table title courseId dueDate mg createdBy freshId).2 =
        table ++ [(createAssignment table title courseId dueDate mg createdBy freshId).1]) := by
  refine ⟨rfl, ?_, fun v hv => ?_, fun mg => rfl⟩
  · simp [createAssignment, defaultMaxGrade]
  · simp [createAssignment, defaultMaxGrade, hv]

/-- C10 witness: a provided non-zero max_grade of 55 is stored unchanged. -/
theorem C10_max_grade_default_witness :
    (createAssignment [] "hw" 1 2 (some 55) 3 4).1.max_grade = 55 :=
  (C10_max_grade_default [] "hw" 1 2 3 4).2.2.1 55 (by norm_num)
